import Mathlib

/-!
Verification of the StudyBoards watermark compositor.

The compositor lives in three near-identical copies in the repository:
the client download path (`src/frontend/src/services/watermarkService.ts`,
`addWatermarkToPDF`), the client preview path (an identical copy of that
service file), and the server-side edge-function handler (function
`addWatermarkToPDF` embedded in the `watermark-pdf` handler).

The embedding below translates that TypeScript into Lean.  The external
pdf-lib calls (`PDFDocument.load`, `embedFont`, `widthOfTextAtSize`,
`drawText`, `save`) are modelled at their interface: a load result is an
`Option Document` (parse failure is `none`), an embedded font is its text
measuring function `String → ℝ → ℝ`, and `drawText` appends a `Stamp`
record to the page's content list.  JavaScript floating point arithmetic
is idealised as real arithmetic.
-/

namespace StudyBoards

/-- One text instance drawn by `page.drawText(text, {x, y, size, font,
color, opacity, rotate})`: the drawn string together with the draw
options passed at the call site. -/
structure Stamp where
  text : String
  x : ℝ
  y : ℝ
  size : ℝ
  color : ℝ × ℝ × ℝ
  opacity : ℝ
  rotation : ℝ

/-- A PDF page as the compositor sees it: its `getSize()` dimensions and
the list of text instances drawn on it (`drawText` appends to it; the
compositor never writes `width`/`height`). -/
structure Page where
  width : ℝ
  height : ℝ
  contents : List Stamp

/-- A parsed PDF document: the page list returned by `getPages()`, in
document order. -/
structure Document where
  pages : List Page

/-- An embedded font, seen through the only operation the compositor
uses: `font.widthOfTextAtSize(text, size)`. -/
def Font : Type := String → ℝ → ℝ

/-- The ways a pdf-lib call inside the compositor can throw:
`PDFDocument.load` rejects unparseable bytes, `embedFont` can fail, and
`pages[0].getSize()` throws when the document has zero pages (JavaScript
`pages[0]` is `undefined`). -/
inductive PdfLibError
  | parseError
  | fontEmbedError
  | pageAccessError
deriving DecidableEq

/-- The single error the client-side service surfaces: the `catch` block
rethrows every failure as `new Error("Failed to add watermark to PDF")`. -/
inductive WatermarkError
  | failedToAddWatermark
deriving DecidableEq

/-- The message carried by the client-side error object. -/
def WatermarkError.message : WatermarkError → String :=
  fun _ => "Failed to add watermark to PDF"

/-! ### Tiling geometry (per page), from the body of `pages.forEach` -/

/-- `diagonalSpacing = Math.sqrt(textWidth*textWidth + textHeight*textHeight) * 0.7`. -/
noncomputable def diagSpacing (tw th : ℝ) : ℝ :=
  Real.sqrt (tw * tw + th * th) * 0.7

/-- `horizontalSpacing = diagonalSpacing * Math.cos((45 * Math.PI) / 180)`. -/
noncomputable def hSpacing (tw th : ℝ) : ℝ :=
  diagSpacing tw th * Real.cos (45 * Real.pi / 180)

/-- `verticalSpacing = diagonalSpacing * Math.sin((45 * Math.PI) / 180)`. -/
noncomputable def vSpacing (tw th : ℝ) : ℝ :=
  diagSpacing tw th * Real.sin (45 * Real.pi / 180)

/-- `padding = Math.max(pageWidth, pageHeight) * 0.1`. -/
def pad (pw ph : ℝ) : ℝ := max pw ph * 0.1

/-- `cols = Math.ceil((pageWidth + padding * 2) / horizontalSpacing) + 1`. -/
noncomputable def wmCols (tw th pw ph : ℝ) : ℤ :=
  ⌈(pw + pad pw ph * 2) / hSpacing tw th⌉ + 1

/-- `rows = Math.ceil((pageHeight + padding * 2) / verticalSpacing) + 1`. -/
noncomputable def wmRows (tw th pw ph : ℝ) : ℤ :=
  ⌈(ph + pad pw ph * 2) / vSpacing tw th⌉ + 1

/-- The guard of the draw call:
`x + textWidth > -padding && x < pageWidth + padding &&
 y + textHeight > -padding && y < pageHeight + padding`. -/
def visTest (tw th pw ph x y : ℝ) : Prop :=
  x + tw > -(pad pw ph) ∧ x < pw + pad pw ph ∧
  y + th > -(pad pw ph) ∧ y < ph + pad pw ph

noncomputable instance (tw th pw ph x y : ℝ) :
    Decidable (visTest tw th pw ph x y) := by
  unfold visTest; exact inferInstance

/-- The integers from `lo` to `hi` inclusive, in order: the index set of
a JavaScript loop `for (let i = lo; i <= hi; i++)`. -/
def intsIcc (lo hi : ℤ) : List ℤ :=
  (List.range (hi + 1 - lo).toNat).map fun (i : ℕ) => lo + (i : ℤ)

/-- The list of stamps the double loop
`for (let row = -1; row <= rows; row++) for (let col = -1; col <= cols; col++)`
draws on one page of dimensions `pw × ph`, given the document-level
`fontSize`, `textWidth` (`tw`) and `textHeight` (`th`). -/
noncomputable def stampsForPage (text : String) (fontSize tw th pw ph : ℝ) :
    List Stamp :=
  (intsIcc (-1) (wmRows tw th pw ph)).flatMap fun (row : ℤ) =>
    (intsIcc (-1) (wmCols tw th pw ph)).filterMap fun (col : ℤ) =>
      let x : ℝ := (col : ℝ) * hSpacing tw th - pad pw ph
      let y : ℝ := (row : ℝ) * vSpacing tw th - pad pw ph
      if visTest tw th pw ph x y then
        some ⟨text, x - tw / 2, y - th / 2, fontSize, (0.7, 0.7, 0.7), 0.3, -45⟩
      else none

/-- The effect of the `forEach` body on one page: dimensions are left
untouched and the stamps of the tiling loop are appended to the page's
content. -/
noncomputable def stampPage (text : String) (fontSize tw th : ℝ) (p : Page) :
    Page :=
  ⟨p.width, p.height,
    p.contents ++ stampsForPage text fontSize tw th p.width p.height⟩

/-- The success path of the compositor on a document whose page list is
`p0 :: ps`: `fontSize = Math.min(width, height) * 0.06` from the first
page, `textWidth = font.widthOfTextAtSize(text, fontSize)`,
`textHeight = fontSize`, then every page is stamped with those shared
values. -/
noncomputable def stampDoc (font : Font) (text : String) (p0 : Page)
    (ps : List Page) : Document :=
  ⟨(p0 :: ps).map
      (stampPage text (min p0.width p0.height * 0.06)
        (font text (min p0.width p0.height * 0.06))
        (min p0.width p0.height * 0.06))⟩

/-- The shared body of the three `addWatermarkToPDF` copies, on an
already-resolved watermark string.  `loadResult` is the outcome of
`PDFDocument.load(pdfBytes)` (`none` = parse failure), `fontResult` the
outcome of `embedFont("Helvetica-Bold")`.  A zero-page document makes
`pages[0].getSize()` throw, modelled as `pageAccessError`. -/
noncomputable def addWatermarkCore (loadResult : Option Document)
    (fontResult : Option Font) (text : String) :
    Except PdfLibError Document :=
  match loadResult with
  | none => .error .parseError
  | some doc =>
    match fontResult with
    | none => .error .fontEmbedError
    | some font =>
      match doc.pages with
      | [] => .error .pageAccessError
      | p0 :: ps => .ok (stampDoc font text p0 ps)

/-- The server-side copy (edge-function handler): it receives an already
resolved, non-optional watermark string and has no try/catch around the
body, so pdf-lib failures propagate as themselves. -/
noncomputable def addWatermarkToPDFServer (loadResult : Option Document)
    (fontResult : Option Font) (watermarkText : String) :
    Except PdfLibError Document :=
  addWatermarkCore loadResult fontResult watermarkText

/-- JavaScript `a || b` on an optional string: `undefined` and `""` are
both falsy, so either one selects the fallback `b`. -/
def jsOrString (a : Option String) (b : String) : String :=
  match a with
  | none => b
  | some s => if s = "" then b else s

/-- `DEFAULT_WATERMARK_TEXT` from the client service file. -/
def DEFAULT_WATERMARK_TEXT : String := "StudyBoards - Confidential"

/-- `getWatermarkText()`: `process.env.REACT_APP_WATERMARK_TEXT || DEFAULT_WATERMARK_TEXT`. -/
def getWatermarkText (env : Option String) : String :=
  jsOrString env DEFAULT_WATERMARK_TEXT

/-- `const text = watermarkText || getWatermarkText();` — the text the
client-side compositor actually stamps, given the environment variable
and the optional `watermarkText` argument. -/
def clientText (env watermarkText : Option String) : String :=
  jsOrString watermarkText (getWatermarkText env)

/-- The client-side `catch` block: any failure is rethrown as the one
generic `Error("Failed to add watermark to PDF")`. -/
def wrapFailure (r : Except PdfLibError Document) :
    Except WatermarkError Document :=
  match r with
  | .ok d => .ok d
  | .error _ => .error .failedToAddWatermark

/-- The client download-path `addWatermarkToPDF` from
`src/frontend/src/services/watermarkService.ts`: resolve the text with
`||` against the environment default, run the shared body, and collapse
every failure to the generic error. -/
noncomputable def addWatermarkToPDFClient (env : Option String)
    (loadResult : Option Document) (fontResult : Option Font)
    (watermarkText : Option String) : Except WatermarkError Document :=
  wrapFailure (addWatermarkCore loadResult fontResult
    (clientText env watermarkText))

/-- The client preview-path copy of `addWatermarkToPDF`: its body is
character-for-character the same as the download-path copy. -/
noncomputable def addWatermarkToPDFPreview (env : Option String)
    (loadResult : Option Document) (fontResult : Option Font)
    (watermarkText : Option String) : Except WatermarkError Document :=
  wrapFailure (addWatermarkCore loadResult fontResult
    (clientText env watermarkText))

/-! ### The spec's tiling formulas, transliterated from the spec text
for the refinement claim C1.  These follow the words of the claim
(`sqrt(textWidth^2 + textHeight^2) * 0.7`, `cos(45 deg)` etc.), not the
code, and are compared with the code-side definitions above. -/

/-- Spec wording: `diagonalSpacing = sqrt(textWidth^2 + textHeight^2) * 0.7`. -/
noncomputable def specDiagSpacing (tw th : ℝ) : ℝ :=
  Real.sqrt (tw ^ 2 + th ^ 2) * 0.7

/-- Spec wording: `horizontalSpacing = diagonalSpacing * cos(45 deg)`
(45 degrees is `pi / 4` radians). -/
noncomputable def specHSpacing (tw th : ℝ) : ℝ :=
  specDiagSpacing tw th * Real.cos (Real.pi / 4)

/-- Spec wording: `verticalSpacing = diagonalSpacing * sin(45 deg)`. -/
noncomputable def specVSpacing (tw th : ℝ) : ℝ :=
  specDiagSpacing tw th * Real.sin (Real.pi / 4)

/-- Spec wording: `padding = max(pageWidth, pageHeight) * 0.1`. -/
def specPad (pw ph : ℝ) : ℝ := max pw ph * 0.1

/-- Spec wording: `cols = ceil((pageWidth + 2*padding) / horizontalSpacing) + 1`. -/
noncomputable def specCols (tw th pw ph : ℝ) : ℤ :=
  ⌈(pw + 2 * specPad pw ph) / specHSpacing tw th⌉ + 1

/-- Spec wording: `rows = ceil((pageHeight + 2*padding) / verticalSpacing) + 1`. -/
noncomputable def specRows (tw th pw ph : ℝ) : ℤ :=
  ⌈(ph + 2 * specPad pw ph) / specVSpacing tw th⌉ + 1

/-- The stamp set the spec prescribes for one page: for every
`(row, col)` with `-1 <= row <= rows` and `-1 <= col <= cols`, letting
`x = col*horizontalSpacing - padding` and `y = row*verticalSpacing - padding`,
a stamp is drawn iff `x + textWidth > -padding`, `x < pageWidth + padding`,
`y + textHeight > -padding`, `y < pageHeight + padding`, anchored at
`(x - textWidth/2, y - textHeight/2)`, rotated -45 degrees, color
`(0.7, 0.7, 0.7)`, opacity `0.3`. -/
noncomputable def specStampSet (text : String) (fontSize tw th pw ph : ℝ) :
    Set Stamp :=
  {s | ∃ row col : ℤ,
    -1 ≤ row ∧ row ≤ specRows tw th pw ph ∧
    -1 ≤ col ∧ col ≤ specCols tw th pw ph ∧
    (col : ℝ) * specHSpacing tw th - specPad pw ph + tw > -(specPad pw ph) ∧
    (col : ℝ) * specHSpacing tw th - specPad pw ph < pw + specPad pw ph ∧
    (row : ℝ) * specVSpacing tw th - specPad pw ph + th > -(specPad pw ph) ∧
    (row : ℝ) * specVSpacing tw th - specPad pw ph < ph + specPad pw ph ∧
    s = ⟨text, (col : ℝ) * specHSpacing tw th - specPad pw ph - tw / 2,
         (row : ℝ) * specVSpacing tw th - specPad pw ph - th / 2,
         fontSize, (0.7, 0.7, 0.7), 0.3, -45⟩}

/-! ### Helper lemmas -/

theorem mem_intsIcc {lo hi a : ℤ} : a ∈ intsIcc lo hi ↔ lo ≤ a ∧ a ≤ hi := by
  unfold intsIcc
  simp only [List.mem_map, List.mem_range]
  constructor
  · rintro ⟨i, hi', rfl⟩
    omega
  · rintro ⟨h1, h2⟩
    exact ⟨(a - lo).toNat, by omega, by omega⟩

theorem mem_stampsForPage {text : String} {fontSize tw th pw ph : ℝ}
    {s : Stamp} :
    s ∈ stampsForPage text fontSize tw th pw ph ↔
      ∃ row col : ℤ,
        (-1 ≤ row ∧ row ≤ wmRows tw th pw ph) ∧
        (-1 ≤ col ∧ col ≤ wmCols tw th pw ph) ∧
        visTest tw th pw ph ((col : ℝ) * hSpacing tw th - pad pw ph)
          ((row : ℝ) * vSpacing tw th - pad pw ph) ∧
        s = ⟨text, (col : ℝ) * hSpacing tw th - pad pw ph - tw / 2,
             (row : ℝ) * vSpacing tw th - pad pw ph - th / 2,
             fontSize, (0.7, 0.7, 0.7), 0.3, -45⟩ := by
  unfold stampsForPage
  simp only [List.mem_flatMap, List.mem_filterMap, mem_intsIcc,
    Option.ite_none_right_eq_some, Option.some.injEq]
  constructor
  · rintro ⟨row, hrow, col, hcol, hvis, hs⟩
    exact ⟨row, col, hrow, hcol, hvis, hs.symm⟩
  · rintro ⟨row, col, hrow, hcol, hvis, hs⟩
    exact ⟨row, hrow, col, hcol, hvis, hs.symm⟩

theorem specPad_eq (pw ph : ℝ) : specPad pw ph = pad pw ph := rfl

theorem specDiagSpacing_eq (tw th : ℝ) :
    specDiagSpacing tw th = diagSpacing tw th := by
  unfold specDiagSpacing diagSpacing
  ring_nf

theorem specHSpacing_eq (tw th : ℝ) : specHSpacing tw th = hSpacing tw th := by
  unfold specHSpacing hSpacing
  rw [specDiagSpacing_eq, show (45 : ℝ) * Real.pi / 180 = Real.pi / 4 by ring]

theorem specVSpacing_eq (tw th : ℝ) : specVSpacing tw th = vSpacing tw th := by
  unfold specVSpacing vSpacing
  rw [specDiagSpacing_eq, show (45 : ℝ) * Real.pi / 180 = Real.pi / 4 by ring]

theorem specCols_eq (tw th pw ph : ℝ) :
    specCols tw th pw ph = wmCols tw th pw ph := by
  unfold specCols wmCols
  rw [specHSpacing_eq, specPad_eq, show pw + 2 * pad pw ph = pw + pad pw ph * 2 by ring]

theorem specRows_eq (tw th pw ph : ℝ) :
    specRows tw th pw ph = wmRows tw th pw ph := by
  unfold specRows wmRows
  rw [specVSpacing_eq, specPad_eq, show ph + 2 * pad pw ph = ph + pad pw ph * 2 by ring]

/-- On a page with positive dimensions and positive text width and
height, the tile at `(row, col) = (0, 0)` always passes the visibility
test, so the stamp list is never empty. -/
theorem stampsForPage_ne_nil (text : String) (fs tw th pw ph : ℝ)
    (htw : 0 < tw) (hth : 0 < th) (hpw : 0 < pw) (hph : 0 < ph) :
    stampsForPage text fs tw th pw ph ≠ [] := by
  have hmaxpos : 0 < max pw ph := lt_of_lt_of_le hpw (le_max_left pw ph)
  have hpad : 0 < pad pw ph := by unfold pad; nlinarith
  have hsq : 0 < Real.sqrt (tw * tw + th * th) :=
    Real.sqrt_pos.mpr (by nlinarith)
  have hsin : Real.sin (45 * Real.pi / 180) = Real.sqrt 2 / 2 := by
    rw [show (45 : ℝ) * Real.pi / 180 = Real.pi / 4 by ring,
      Real.sin_pi_div_four]
  have hcos : Real.cos (45 * Real.pi / 180) = Real.sqrt 2 / 2 := by
    rw [show (45 : ℝ) * Real.pi / 180 = Real.pi / 4 by ring,
      Real.cos_pi_div_four]
  have h2 : 0 < Real.sqrt 2 / 2 := by positivity
  have hvs : 0 < vSpacing tw th := by
    unfold vSpacing diagSpacing
    rw [hsin]
    nlinarith
  have hhs : 0 < hSpacing tw th := by
    unfold hSpacing diagSpacing
    rw [hcos]
    nlinarith
  refine List.ne_nil_of_mem
    (mem_stampsForPage.mpr ⟨0, 0, ⟨by norm_num, ?_⟩, ⟨by norm_num, ?_⟩, ?_, rfl⟩)
  · unfold wmRows
    have : (0 : ℤ) ≤ ⌈(ph + pad pw ph * 2) / vSpacing tw th⌉ :=
      Int.ceil_nonneg (div_nonneg (by nlinarith) hvs.le)
    omega
  · unfold wmCols
    have : (0 : ℤ) ≤ ⌈(pw + pad pw ph * 2) / hSpacing tw th⌉ :=
      Int.ceil_nonneg (div_nonneg (by nlinarith) hhs.le)
    omega
  · unfold visTest
    push_cast
    refine ⟨by nlinarith, by nlinarith, by nlinarith, by nlinarith⟩

/-- `Forall₂` between a mapped list and the original, from a pointwise
property of the mapping. -/
theorem forall2_map_self {α : Type} {R : α → α → Prop} (g : α → α)
    (l : List α) (h : ∀ p ∈ l, R (g p) p) : List.Forall₂ R (l.map g) l := by
  induction l with
  | nil => exact List.Forall₂.nil
  | cons p l ih =>
    exact List.Forall₂.cons (h p (by simp))
      (ih fun q hq => h q (by simp [hq]))

/-! ### The claims -/

/-- Claim C1: for every page of the parsed document, the compositor
computes the tiling exactly as specified — with `textHeight = fontSize`,
`diagonalSpacing = sqrt(textWidth^2 + textHeight^2) * 0.7`,
`horizontalSpacing = diagonalSpacing * cos(45°)`,
`verticalSpacing = diagonalSpacing * sin(45°)`,
`padding = max(pageWidth, pageHeight) * 0.1`,
`cols = ceil((pageWidth + 2*padding)/horizontalSpacing) + 1`,
`rows = ceil((pageHeight + 2*padding)/verticalSpacing) + 1`, and for
every `(row, col)` in `[-1, rows] × [-1, cols]` a stamp is drawn iff the
visibility test passes, anchored at `(x - textWidth/2, y - textHeight/2)`,
rotated -45°, color `(0.7, 0.7, 0.7)`, opacity `0.3`. -/
theorem claim1_tiling_matches_spec :
    (∀ (text : String) (fontSize tw th pw ph : ℝ) (s : Stamp),
        s ∈ stampsForPage text fontSize tw th pw ph ↔
          s ∈ specStampSet text fontSize tw th pw ph) ∧
    (∀ (f : Font) (t : String) (p0 : Page) (ps : List Page),
        addWatermarkCore (some ⟨p0 :: ps⟩) (some f) t =
          .ok (stampDoc f t p0 ps)) := by
  constructor
  · intro text fs tw th pw ph s
    rw [mem_stampsForPage]
    unfold specStampSet
    simp only [Set.mem_setOf_eq, specHSpacing_eq, specVSpacing_eq,
      specPad_eq, specCols_eq, specRows_eq]
    unfold visTest
    constructor
    · rintro ⟨row, col, ⟨h1, h2⟩, ⟨h3, h4⟩, ⟨v1, v2, v3, v4⟩, rfl⟩
      exact ⟨row, col, h1, h2, h3, h4, v1, v2, v3, v4, rfl⟩
    · rintro ⟨row, col, h1, h2, h3, h4, v1, v2, v3, v4, rfl⟩
      exact ⟨row, col, ⟨h1, h2⟩, ⟨h3, h4⟩, ⟨v1, v2, v3, v4⟩, rfl⟩
  · intro f t p0 ps
    rfl

/-- Claim C2: the compositor derives `fontSize = min(page0.width,
page0.height) * 0.06` from the first page only, once per call, and that
same `fontSize` and the same measured `textWidth` are used for the
stamps of every page, including pages of different dimensions: the
result is the page list mapped with one fixed
`(fontSize, textWidth, textHeight)` triple. -/
theorem claim2_fontSize_from_first_page_only (f : Font) (t : String)
    (p0 : Page) (ps : List Page) :
    addWatermarkCore (some ⟨p0 :: ps⟩) (some f) t =
      .ok ⟨(p0 :: ps).map
        (stampPage t (min p0.width p0.height * 0.06)
          (f t (min p0.width p0.height * 0.06))
          (min p0.width p0.height * 0.06))⟩ := rfl

/-- Claim C3: on success the output document has the same page count,
the same page order, and for every page the same width and height as
the input, and each output page's content is the input page's content
with stamps appended — nothing is resized, removed or reordered. -/
theorem claim3_frame_effect (f : Font) (t : String) (p0 : Page)
    (ps : List Page) :
    addWatermarkCore (some ⟨p0 :: ps⟩) (some f) t =
      .ok (stampDoc f t p0 ps) ∧
    (stampDoc f t p0 ps).pages.length = (p0 :: ps).length ∧
    List.Forall₂ (fun q p => q.width = p.width ∧ q.height = p.height ∧
        ∃ added, q.contents = p.contents ++ added)
      (stampDoc f t p0 ps).pages (p0 :: ps) := by
  refine ⟨rfl, by simp [stampDoc], ?_⟩
  exact forall2_map_self _ _ (fun p _ => ⟨rfl, rfl, ⟨_, rfl⟩⟩)

/-- Claim C4: on unparseable input bytes (`PDFDocument.load` fails) the
compositor produces no output document: the shared body fails with the
parse error (which the server copy surfaces as such), the client copy
fails with its generic error, and in all copies the result is an error,
never a partial or empty output. -/
theorem claim4_parse_failure_no_output :
    ∀ (env : Option String) (fontResult : Option Font)
      (wt : Option String) (t : String),
      addWatermarkToPDFClient env none fontResult wt =
        .error .failedToAddWatermark ∧
      addWatermarkCore none fontResult t = .error .parseError ∧
      addWatermarkToPDFServer none fontResult t = .error .parseError :=
  fun _ _ _ _ => ⟨rfl, rfl, rfl⟩

/-- Claim C5 counterexample: passing the empty string as the watermark
text does NOT make the client compositor proceed with the empty string.
The resolution `watermarkText || getWatermarkText()` treats `""` as
falsy, so the default text is substituted. -/
theorem claim5_counterexample :
    clientText none (some "") = "StudyBoards - Confidential" ∧
    "StudyBoards - Confidential" ≠ "" := ⟨rfl, by decide⟩

/-- Claim C5 amended: when the watermark text passed to the client-side
compositor is the empty string, the `||` resolution substitutes the
default (`getWatermarkText()`, i.e. the environment text or
`"StudyBoards - Confidential"`), so the degenerate empty-text tiling is
unreachable through that interface.  The server-side core, which
receives an already-resolved string, does proceed with the empty
string: the operation completes (returns `.ok`), and with
`textWidth = 0` the diagonal spacing degenerates to
`|textHeight| * 0.7`. -/
theorem claim5_amended_empty_text_substituted :
    (∀ env : Option String, clientText env (some "") = getWatermarkText env) ∧
    clientText none (some "") = DEFAULT_WATERMARK_TEXT ∧
    (∀ (f : Font) (p0 : Page) (ps : List Page),
        addWatermarkToPDFServer (some ⟨p0 :: ps⟩) (some f) "" =
          .ok (stampDoc f "" p0 ps)) ∧
    (∀ th : ℝ, diagSpacing 0 th = |th| * 0.7) := by
  refine ⟨fun _ => rfl, rfl, fun _ _ _ => rfl, fun th => ?_⟩
  unfold diagSpacing
  rw [show (0 : ℝ) * 0 + th * th = th ^ 2 by ring, Real.sqrt_sq_eq_abs]

/-- Claim C7: on a zero-page document the derivation of `fontSize`
accesses `pages[0]` with no guard, so the transformation fails (the
client copy with its generic error, the server copy with the page
access failure) instead of returning a passthrough output. -/
theorem claim7_zero_pages_fails :
    ∀ (env : Option String) (f : Font) (wt : Option String) (t : String),
      addWatermarkToPDFClient env (some ⟨[]⟩) (some f) wt =
        .error .failedToAddWatermark ∧
      addWatermarkToPDFServer (some ⟨[]⟩) (some f) t =
        .error .pageAccessError :=
  fun _ _ _ _ => ⟨rfl, rfl⟩

/-- Claim C8: on resolved inputs (a non-empty watermark string) the
three compositor copies compute the same stamp set: the preview copy
equals the download copy, and the download copy equals the server copy
up to the client's error wrapping — in particular all three agree on
every success output. -/
theorem claim8_three_copies_agree (env : Option String)
    (loadResult : Option Document) (fontResult : Option Font)
    (t : String) (ht : t ≠ "") :
    addWatermarkToPDFPreview env loadResult fontResult (some t) =
      addWatermarkToPDFClient env loadResult fontResult (some t) ∧
    addWatermarkToPDFClient env loadResult fontResult (some t) =
      wrapFailure (addWatermarkToPDFServer loadResult fontResult t) := by
  refine ⟨rfl, ?_⟩
  show wrapFailure (addWatermarkCore loadResult fontResult
    (if t = "" then getWatermarkText env else t)) = _
  rw [if_neg ht]
  rfl

/-- Witness for claim C8 at the concrete text "CONFIDENTIAL". -/
theorem claim8_witness :
    "CONFIDENTIAL" ≠ "" ∧
    (addWatermarkToPDFPreview none none none (some "CONFIDENTIAL") =
      addWatermarkToPDFClient none none none (some "CONFIDENTIAL") ∧
     addWatermarkToPDFClient none none none (some "CONFIDENTIAL") =
      wrapFailure (addWatermarkToPDFServer none none "CONFIDENTIAL")) :=
  ⟨by decide,
   claim8_three_copies_agree none none none "CONFIDENTIAL" (by decide)⟩

/-- Claim C10: every failure of the client-side compositor — parse
failure, font-embedding failure, zero-page first-page access — surfaces
as the one generic `Error("Failed to add watermark to PDF")`, although
the underlying pdf-lib failures are distinct; the distinction is not
observable at the client's public interface. -/
theorem claim10_single_generic_client_error :
    ∀ (env wt : Option String) (t : String) (f : Font) (d : Document),
      addWatermarkToPDFClient env none (some f) wt =
        .error .failedToAddWatermark ∧
      addWatermarkToPDFClient env (some d) none wt =
        .error .failedToAddWatermark ∧
      addWatermarkToPDFClient env (some ⟨[]⟩) (some f) wt =
        .error .failedToAddWatermark ∧
      addWatermarkCore none (some f) t = .error .parseError ∧
      addWatermarkCore (some d) none t = .error .fontEmbedError ∧
      addWatermarkCore (some ⟨[]⟩) (some f) t = .error .pageAccessError ∧
      (∀ e : WatermarkError,
        e.message = "Failed to add watermark to PDF") :=
  fun _ _ _ _ _ => ⟨rfl, rfl, rfl, rfl, rfl, rfl, fun _ => rfl⟩

/-- A sample page of positive dimensions with no prior content, for
concrete instances. -/
def unitPage : Page := ⟨1, 1, []⟩

/-- A sample font metric: the measured width of any text equals the
font size. -/
def lineFont : Font := fun _ s => s

/-- The `fontSize` the compositor derives from `unitPage`. -/
noncomputable def unitFS : ℝ := min unitPage.width unitPage.height * 0.06

/-- Claim C9: re-applying the compositor to an already-watermarked
document appends further stamps to every page and removes nothing, so
the number of visible text instances never decreases; and the operation
is not idempotent — on a concrete document, watermarking twice differs
from watermarking once. -/
theorem claim9_reapplication_stacks :
    (∀ (f : Font) (t : String) (q0 : Page) (qs : List Page),
        addWatermarkCore (some ⟨q0 :: qs⟩) (some f) t =
          .ok (stampDoc f t q0 qs) ∧
        List.Forall₂ (fun q p => p.contents.length ≤ q.contents.length ∧
            ∃ added, q.contents = p.contents ++ added)
          (stampDoc f t q0 qs).pages (q0 :: qs)) ∧
    addWatermarkCore (some (stampDoc lineFont "A" unitPage []))
        (some lineFont) "A" =
      .ok (stampDoc lineFont "A"
        (stampPage "A" unitFS unitFS unitFS unitPage) []) ∧
    stampDoc lineFont "A" (stampPage "A" unitFS unitFS unitFS unitPage) [] ≠
      stampDoc lineFont "A" unitPage [] := by
  refine ⟨fun f t q0 qs => ⟨rfl, ?_⟩, rfl, ?_⟩
  · exact forall2_map_self _ _
      (fun p _ => ⟨by simp [stampPage], ⟨_, rfl⟩⟩)
  · intro h
    have hpages := congrArg Document.pages h
    simp only [stampDoc, List.map] at hpages
    have hhead := List.head_eq_of_cons_eq hpages
    have hc := congrArg Page.contents hhead
    have hlen := congrArg List.length hc
    have hne : stampsForPage "A" (min (1 : ℝ) 1 * 0.06)
        (min (1 : ℝ) 1 * 0.06) (min (1 : ℝ) 1 * 0.06) 1 1 ≠ [] :=
      stampsForPage_ne_nil "A" _ _ _ _ _ (by norm_num) (by norm_num)
        (by norm_num) (by norm_num)
    have hne0 : (stampsForPage "A" (min (1 : ℝ) 1 * 0.06)
        (min (1 : ℝ) 1 * 0.06) (min (1 : ℝ) 1 * 0.06) 1 1).length ≠ 0 :=
      fun hl => hne (List.eq_nil_of_length_eq_zero hl)
    simp only [stampPage, unitPage, unitFS, lineFont, List.length_append,
      min_self, one_mul] at hlen hne0
    omega

/-! ### Visibility geometry for claim C6 -/

/-- The axis-aligned box the visibility test examines: the unrotated
`tw × th` rectangle at the tile's `(x, y)`, before the anchor shift and
the rotation of the actual draw call. -/
def testedBox (x y tw th : ℝ) : Set (ℝ × ℝ) :=
  {q | x ≤ q.1 ∧ q.1 ≤ x + tw ∧ y ≤ q.2 ∧ q.2 ≤ y + th}

/-- The open padded page rectangle the visibility test compares
against. -/
def paddedRect (pw ph : ℝ) : Set (ℝ × ℝ) :=
  {q | -(pad pw ph) < q.1 ∧ q.1 < pw + pad pw ph ∧
       -(pad pw ph) < q.2 ∧ q.2 < ph + pad pw ph}

/-- The visible page: `[0, pageWidth] × [0, pageHeight]`. -/
def pageRect (pw ph : ℝ) : Set (ℝ × ℝ) :=
  {q | 0 ≤ q.1 ∧ q.1 ≤ pw ∧ 0 ≤ q.2 ∧ q.2 ≤ ph}

/-- Modelled from the spec: the footprint of a stamp whose `tw × th`
text box is drawn at anchor `(ax, ay)` and rotated -45 degrees about
that anchor; rotating `(u, v)` by -45 degrees gives
`((u + v) * sqrt 2 / 2, (v - u) * sqrt 2 / 2)`. -/
def rotatedStampFootprint (ax ay tw th : ℝ) : Set (ℝ × ℝ) :=
  {q | ∃ u v : ℝ, 0 ≤ u ∧ u ≤ tw ∧ 0 ≤ v ∧ v ≤ th ∧
    q.1 = ax + (u + v) * (Real.sqrt 2 / 2) ∧
    q.2 = ay + (v - u) * (Real.sqrt 2 / 2)}

/-- Claim C6 amended: for every page with positive dimensions and
positive text width and height at least one `(row, col)` passes the
visibility test, so the stamp set is non-empty; and the test never
rejects a tile whose unrotated `tw × th` box at `(x, y)` meets the
padded page rectangle.  (The original claim's stronger guarantee — that
no tile whose rotated, anchor-shifted stamp is visible on the page is
ever rejected — is false; see the counterexample.) -/
theorem claim6_amended (text : String) (fs tw th pw ph : ℝ)
    (htw : 0 < tw) (hth : 0 < th) (hpw : 0 < pw) (hph : 0 < ph) :
    stampsForPage text fs tw th pw ph ≠ [] ∧
    ∀ x y : ℝ, ¬ visTest tw th pw ph x y →
      testedBox x y tw th ∩ paddedRect pw ph = ∅ := by
  refine ⟨stampsForPage_ne_nil text fs tw th pw ph htw hth hpw hph, ?_⟩
  intro x y hvis
  rw [Set.eq_empty_iff_forall_not_mem]
  rintro ⟨qx, qy⟩ ⟨⟨b1, b2, b3, b4⟩, ⟨p1, p2, p3, p4⟩⟩
  exact hvis ⟨by linarith, by linarith, by linarith, by linarith⟩

/-- Witness for the amended claim C6 on a 1 x 1 page with unit text box. -/
theorem claim6_amended_witness :
    (0 : ℝ) < 1 ∧
    (stampsForPage "X" 1 1 1 1 1 ≠ [] ∧
     ∀ x y : ℝ, ¬ visTest 1 1 1 1 x y →
       testedBox x y 1 1 ∩ paddedRect 1 1 = ∅) :=
  ⟨by norm_num,
   claim6_amended "X" 1 1 1 1 1 (by norm_num) (by norm_num) (by norm_num)
     (by norm_num)⟩

set_option maxHeartbeats 1000000 in
/-- Claim C6 counterexample: the visibility test can reject a tile
whose stamp would be visible on the page.  On a 612 x 792 page with
`textWidth = 300` and `textHeight = 36`, the tile `(row, col) = (7, 2)`
is inside the iteration range and fails the visibility test, yet the
rotated footprint of its stamp (anchored at `(x - tw/2, y - th/2)`,
rotated -45 degrees) reaches into the visible page: the rotated image
of the text-box point `(u, v) = (300, 0)` lies inside
`[0, 612] × [0, 792]`. -/
theorem claim6_counterexample :
    ((-1 : ℤ) ≤ 7 ∧ (7 : ℤ) ≤ wmRows 300 36 612 792 ∧
     (-1 : ℤ) ≤ 2 ∧ (2 : ℤ) ≤ wmCols 300 36 612 792) ∧
    ¬ visTest 300 36 612 792 (2 * hSpacing 300 36 - pad 612 792)
        (7 * vSpacing 300 36 - pad 612 792) ∧
    (2 * hSpacing 300 36 - pad 612 792 - 300 / 2 +
        (300 + 0) * (Real.sqrt 2 / 2),
     7 * vSpacing 300 36 - pad 612 792 - 36 / 2 +
        (0 - 300) * (Real.sqrt 2 / 2)) ∈
      rotatedStampFootprint
        (2 * hSpacing 300 36 - pad 612 792 - 300 / 2)
        (7 * vSpacing 300 36 - pad 612 792 - 36 / 2) 300 36 ∩
      pageRect 612 792 := by
  have s2l : (1.41421 : ℝ) < Real.sqrt 2 := by
    rw [show (1.41421 : ℝ) = Real.sqrt (1.41421 ^ 2) from
      (Real.sqrt_sq (by norm_num)).symm]
    exact Real.sqrt_lt_sqrt (by norm_num) (by norm_num)
  have s2u : Real.sqrt 2 < 1.41422 := by
    rw [Real.sqrt_lt' (by norm_num)]; norm_num
  have s91l : (302.15 : ℝ) < Real.sqrt 91296 := by
    rw [show (302.15 : ℝ) = Real.sqrt (302.15 ^ 2) from
      (Real.sqrt_sq (by norm_num)).symm]
    exact Real.sqrt_lt_sqrt (by norm_num) (by norm_num)
  have s91u : Real.sqrt 91296 < 302.16 := by
    rw [Real.sqrt_lt' (by norm_num)]; norm_num
  have hpadv : pad 612 792 = 79.2 := by
    unfold pad
    rw [max_eq_right (by norm_num : (612 : ℝ) ≤ 792)]
    norm_num
  have hsin : Real.sin (45 * Real.pi / 180) = Real.sqrt 2 / 2 := by
    rw [show (45 : ℝ) * Real.pi / 180 = Real.pi / 4 by ring,
      Real.sin_pi_div_four]
  have hcos : Real.cos (45 * Real.pi / 180) = Real.sqrt 2 / 2 := by
    rw [show (45 : ℝ) * Real.pi / 180 = Real.pi / 4 by ring,
      Real.cos_pi_div_four]
  have harg : (300 : ℝ) * 300 + 36 * 36 = 91296 := by norm_num
  have hvs : vSpacing 300 36 = Real.sqrt 91296 * 0.7 * (Real.sqrt 2 / 2) := by
    unfold vSpacing diagSpacing
    rw [harg, hsin]
  have hhs : hSpacing 300 36 = Real.sqrt 91296 * 0.7 * (Real.sqrt 2 / 2) := by
    unfold hSpacing diagSpacing
    rw [harg, hcos]
  have hprod : (427.3 : ℝ) < Real.sqrt 91296 * Real.sqrt 2 ∧
      Real.sqrt 91296 * Real.sqrt 2 < 427.33 := by
    constructor
    · nlinarith [mul_pos (sub_pos.mpr s91l) (sub_pos.mpr s2l)]
    · nlinarith [mul_pos (sub_pos.mpr s91u) (sub_pos.mpr s2u)]
  have hvl : (149.55 : ℝ) < vSpacing 300 36 := by
    rw [hvs]; nlinarith [hprod.1]
  have hvu : vSpacing 300 36 < 149.57 := by
    rw [hvs]; nlinarith [hprod.2]
  have hhl : (149.55 : ℝ) < hSpacing 300 36 := by
    rw [hhs]; nlinarith [hprod.1]
  have hhu : hSpacing 300 36 < 149.57 := by
    rw [hhs]; nlinarith [hprod.2]
  refine ⟨⟨by norm_num, ?_, by norm_num, ?_⟩, ?_, ?_, ?_⟩
  · unfold wmRows
    have h5 : (5 : ℤ) < ⌈(792 + pad 612 792 * 2) / vSpacing 300 36⌉ := by
      refine Int.lt_ceil.mpr ?_
      rw [hpadv, lt_div_iff₀ (by linarith)]
      push_cast
      nlinarith
    omega
  · unfold wmCols
    have h1 : (1 : ℤ) < ⌈(612 + pad 612 792 * 2) / hSpacing 300 36⌉ := by
      refine Int.lt_ceil.mpr ?_
      rw [hpadv, lt_div_iff₀ (by linarith)]
      push_cast
      nlinarith
    omega
  · rintro ⟨-, -, -, h4⟩
    rw [hpadv] at h4
    linarith
  · exact ⟨300, 0, by norm_num, by norm_num, by norm_num, by norm_num,
      rfl, rfl⟩
  · refine ⟨?_, ?_, ?_, ?_⟩ <;> rw [hpadv] <;> nlinarith [s2l, s2u]

end StudyBoards
